import Mathlib

/-!
Verification of the terrain-mapper module (source file src/unnamed/part_000):
the `TerrainMap` id allocator (a subclass of the JS `Map`) and the
`Terrain.elevationMinMax` helper.

Modelling notes (JavaScript semantics made explicit):

* A JS `Map` keeps entries in insertion order; `set` on an existing key
  updates the value in place, otherwise appends a fresh entry.  Key lookup
  uses SameValueZero equality, under which `NaN` equals `NaN`, so `NaN` is a
  usable key.  Entries are modelled as an insertion-ordered association list.
* The only numbers that can reach the key or cursor position of a
  `TerrainMap` are non-negative integers and `NaN`: the private cursor
  starts at `1` and is only ever replaced by a result of `findNextId`,
  which produces `key + 1`, `cursor + 1` or `NaN`; explicitly supplied ids
  are validated to be integers at least `1` before they are stored.  A key
  or cursor value is therefore modelled as `Option Nat`, with `none`
  standing for `NaN`.
* `undefined + 1` and `NaN + 1` evaluate to `NaN`, and `NaN ?? 1` is `NaN`
  (`NaN` is not nullish), so the `?? 1` fallback in `findNextId` never
  fires; the function yields `NaN` when the key scan comes up empty.
* `NaN !== x` is true for every `x` (including `NaN` itself), and
  `NaN > x` / `NaN < x` are false for every `x`.
* `Array.prototype.sort` with comparator `(a, b) => a - b` sorts numbers
  ascending; when a `NaN` key is present the comparator is inconsistent and
  the resulting order is implementation defined, so the model fixes one
  definite order via an insertion sort whose comparison treats `NaN` as
  passing.  No statement below depends on the relative order of several
  keys when a `NaN` key is among them.
* External ids handed to `set` / `delete` are modelled as `Int`: every
  non-integer number is rejected by the same `Number.isInteger(id)` /
  `id < 1` guard that rejects the non-positive integers, so `Int` inputs
  cover all behaviours the claims quantify over.
-/

/-- A JS number in key or cursor position: a natural number, or `none` for `NaN`. -/
abbrev JKey : Type := Option Nat

/-- The `TerrainMap` class of the source: the inherited `Map` contents
(`entries`, insertion ordered) plus the private cursor field `#nextId`. -/
structure TerrainMap (T : Type) where
  entries : List (JKey × T)
  nextId : JKey
deriving DecidableEq

namespace TerrainMap

variable {T : Type}

/-- `MAX_TERRAINS = Math.pow(2, 5) - 1` of the source. -/
def MAX_TERRAINS : Int := 2 ^ 5 - 1

/-- `new TerrainMap()`: empty map, `#nextId = 1`. -/
def empty (T : Type) : TerrainMap T := ⟨[], some 1⟩

/-- `Map.prototype.get`: first (only) entry whose key matches (SameValueZero). -/
def jsGet (es : List (JKey × T)) (k : JKey) : Option T :=
  match es with
  | [] => none
  | p :: rest => if p.1 = k then some p.2 else jsGet rest k

/-- `Map.prototype.has`. -/
def jsHas (es : List (JKey × T)) (k : JKey) : Bool :=
  (jsGet es k).isSome

/-- `Map.prototype.set`: replace in place if the key exists, else append. -/
def jsSet (es : List (JKey × T)) (k : JKey) (v : T) : List (JKey × T) :=
  match es with
  | [] => [(k, v)]
  | p :: rest => if p.1 = k then (k, v) :: rest else p :: jsSet rest k v

/-- `Map.prototype.delete` minus its Boolean result: drop the (unique) entry
with the given key, if any. -/
def jsEraseKey (es : List (JKey × T)) (k : JKey) : List (JKey × T) :=
  match es with
  | [] => []
  | p :: rest => if p.1 = k then rest else p :: jsEraseKey rest k

/-- Does an integer id occur among the keys?  An `Int` id can only match a
numeric key (never the `NaN` key), and only when it is non-negative. -/
def jsHasInt (es : List (JKey × T)) (i : Int) : Bool :=
  if i < 0 then false else jsHas es (some i.toNat)

/-- Drop the entry whose key is the given integer, if any. -/
def jsEraseInt (es : List (JKey × T)) (i : Int) : List (JKey × T) :=
  if i < 0 then es else jsEraseKey es (some i.toNat)

/-- The comparison the model uses for `[...this.keys()].sort((a, b) => a - b)`:
numeric keys ascending; comparisons involving the `NaN` key are fixed to
`true` (the JS sort order is implementation defined in that case). -/
def jleB : JKey → JKey → Bool
  | some a, some b => decide (a ≤ b)
  | _, _ => true

/-- Insertion step of the key sort. -/
def insK (x : JKey) : List JKey → List JKey
  | [] => [x]
  | y :: ys => if jleB x y then x :: y :: ys else y :: insK x ys

/-- The key sort `[...this.keys()].sort((a, b) => a - b)`. -/
def sortK : List JKey → List JKey
  | [] => []
  | x :: xs => insK x (sortK xs)

/-- `keys.find((k, idx) => keys[idx + 1] !== k + 1)` on the sorted key list:
the first key whose successor position does not hold `key + 1`.
For a `NaN` key the test `keys[idx+1] !== NaN + 1` is always true
(nothing is strictly equal to `NaN`); for the last element
`keys[idx+1]` is `undefined`, so the test is true as well.
`none` is JS `undefined` (empty list). -/
def scanGap : List JKey → Option JKey
  | [] => none
  | none :: _ => some none
  | [some n] => some (some n)
  | some n :: k :: rest =>
      if k = some (n + 1) then scanGap (k :: rest) else some (some n)

/-- `lastConsecutiveKey + 1 ?? 1` of the source: `undefined + 1` and
`NaN + 1` are `NaN`, and `NaN ?? 1` stays `NaN`, so the `?? 1` never fires. -/
def bump : Option JKey → JKey
  | none => none
  | some none => none
  | some (some n) => some (n + 1)

/-- `#findNextId()`, called with the already-mutated entries while `#nextId`
still holds its previous value: if `this.size === this.#nextId - 1` return
`#nextId + 1` (with JS arithmetic, so the test is false when the cursor is
`NaN`); otherwise scan the sorted key list for the end of the first
consecutive run. -/
def findNextId (es : List (JKey × T)) (oldNextId : JKey) : JKey :=
  match oldNextId with
  | some c =>
      if (es.length : Int) = (c : Int) - 1 then some (c + 1)
      else bump (scanGap (sortK (es.map Prod.fst)))
  | none => bump (scanGap (sortK (es.map Prod.fst)))

/-- `TerrainMap.set(id, terrain, override = false)`.  `oid = none` is the JS
`null`/`undefined` id, replaced by the cursor via `id ??= this.#nextId`.
The duplicate check runs before the validity check, exactly as in the
source; both rejections return `undefined` (modelled `none`) and leave the
map untouched.  When the cursor is `NaN` and the id is defaulted, the call
is always rejected (either as a duplicate of a `NaN` key or by the
`Number.isInteger(id)` guard), with no mutation either way. -/
def set (m : TerrainMap T) (oid : Option Int) (t : T) (override : Bool) :
    Option JKey × TerrainMap T :=
  match oid with
  | some i =>
      if !override && jsHasInt m.entries i then (none, m)
      else if i < 1 then (none, m)
      else (some (some i.toNat),
        ⟨jsSet m.entries (some i.toNat) t,
         findNextId (jsSet m.entries (some i.toNat) t) m.nextId⟩)
  | none =>
      match m.nextId with
      | some c =>
          if !override && jsHas m.entries (some c) then (none, m)
          else if c < 1 then (none, m)
          else (some (some c),
            ⟨jsSet m.entries (some c) t,
             findNextId (jsSet m.entries (some c) t) m.nextId⟩)
      | none => (none, m)

/-- `TerrainMap.add(terrain)`: store at the current cursor unconditionally
(the capacity warning has no effect on the state) and return the used id. -/
def add (m : TerrainMap T) (t : T) : JKey × TerrainMap T :=
  (m.nextId,
   ⟨jsSet m.entries m.nextId t,
    findNextId (jsSet m.entries m.nextId t) m.nextId⟩)

/-- `TerrainMap.delete(id)`: `false` and no mutation when absent; otherwise
remove the entry and recompute the cursor only when `this.#nextId > id`
(false when the cursor is `NaN`). -/
def delete (m : TerrainMap T) (i : Int) : Bool × TerrainMap T :=
  if jsHasInt m.entries i then
    (true,
     ⟨jsEraseInt m.entries i,
      match m.nextId with
      | some c =>
          if i < (c : Int) then findNextId (jsEraseInt m.entries i) (some c)
          else some c
      | none => none⟩)
  else (false, m)

/-- `TerrainMap.clear()`. -/
def clear (_m : TerrainMap T) : TerrainMap T := ⟨[], some 1⟩

/-- Iterated `add`: the list of returned ids and the final map. -/
def addAll : TerrainMap T → List T → List JKey × TerrainMap T
  | m, [] => ([], m)
  | m, t :: ts =>
      ((add m t).1 :: (addAll (add m t).2 ts).1, (addAll (add m t).2 ts).2)

end TerrainMap

/-- The `config` fields of `Terrain` that `elevationMinMax` reads. -/
structure TerrainConfig where
  offset : Int
  rangeBelow : Int
  rangeAbove : Int
deriving DecidableEq

namespace Terrain

/-- `Terrain.elevationMinMax(anchorE)`:
`e = anchorE + offset; return { min: e + rangeBelow, max: e + rangeAbove }`. -/
def elevationMinMax (cfg : TerrainConfig) (anchorE : Int) : Int × Int :=
  (anchorE + cfg.offset + cfg.rangeBelow, anchorE + cfg.offset + cfg.rangeAbove)

end Terrain

/-- `[a, a + 1, ..., a + n - 1]`: the contiguous run of `n` ids starting at `a`. -/
def ctg (a : Nat) : Nat → List Nat
  | 0 => []
  | n + 1 => a :: ctg (a + 1) n

/-- The container reached by `add 10; add 20; delete 1` from a fresh map:
keys `{2}`, cursor left at `3` by the gap scan. -/
def c1state : TerrainMap Nat :=
  (TerrainMap.delete (TerrainMap.addAll (TerrainMap.empty Nat) [10, 20]).2 1).2

/-- The container reached by `set 7; set 5; set 3; delete 7; add 40` from a
fresh map: entries `{3, 4, 5}` with the cursor (wrongly) at `5`. -/
def c2state : TerrainMap Nat :=
  (TerrainMap.add
    (TerrainMap.delete
      (TerrainMap.set
        (TerrainMap.set
          (TerrainMap.set (TerrainMap.empty Nat) (some 7) 70 false).2
          (some 5) 50 false).2
        (some 3) 30 false).2
      7).2
    40).2

/-- The container reached by `add 10; delete 1; add 20` from a fresh map. -/
def c3state : TerrainMap Nat :=
  (TerrainMap.add
    (TerrainMap.delete (TerrainMap.add (TerrainMap.empty Nat) 10).2 1).2
    20).2

/-- Original container of the round-trip test: `set 2 10; set 1 20`. -/
def c4orig : TerrainMap Nat :=
  (TerrainMap.set
    (TerrainMap.set (TerrainMap.empty Nat) (some 2) 10 false).2
    (some 1) 20 false).2

/-- Ascending-order replay of `c4orig`: `set 1 20 override; set 2 10 override`
into a fresh map. -/
def c4replay : TerrainMap Nat :=
  (TerrainMap.set
    (TerrainMap.set (TerrainMap.empty Nat) (some 1) 20 true).2
    (some 2) 10 true).2

/-- State after the first `assign(5, 7)` of the atomicity scenario. -/
def c6state : TerrainMap Nat :=
  (TerrainMap.set (TerrainMap.empty Nat) (some 5) 7 false).2

/-- The container with keys `{1, 2, 3, 4}` built by four `add` calls. -/
def c7m4 : TerrainMap Nat :=
  (TerrainMap.addAll (TerrainMap.empty Nat) [10, 20, 30, 40]).2

/-! ## Basic lemmas about the JS `Map` model -/

namespace TerrainMap

theorem jsGet_jsSet_self {T : Type} (es : List (JKey × T)) (k : JKey) (v : T) :
    jsGet (jsSet es k v) k = some v := by
  induction es with
  | nil => simp [jsSet, jsGet]
  | cons p rest ih =>
      by_cases h : p.1 = k
      · simp [jsSet, jsGet, h]
      · simp [jsSet, jsGet, h, ih]

theorem jsHas_iff {T : Type} (es : List (JKey × T)) (k : JKey) :
    jsHas es k = true ↔ k ∈ es.map Prod.fst := by
  induction es with
  | nil => simp [jsHas, jsGet]
  | cons p rest ih =>
      by_cases h : p.1 = k
      · simp [jsHas, jsGet, h]
      · have ih' : (jsGet rest k).isSome = true ↔ k ∈ rest.map Prod.fst := ih
        simp [jsHas, jsGet, h, ih', Ne.symm h]

theorem jsSet_append {T : Type} (es : List (JKey × T)) (k : JKey) (v : T)
    (h : jsHas es k = false) : jsSet es k v = es ++ [(k, v)] := by
  induction es with
  | nil => simp [jsSet]
  | cons p rest ih =>
      by_cases hp : p.1 = k
      · exfalso
        simp [jsHas, jsGet, hp] at h
      · have h' : jsHas rest k = false := by
          have hg : (jsGet rest k).isSome = false := by
            simpa [jsHas, jsGet, hp] using h
          exact hg
        simp [jsSet, hp, ih h']

theorem jsHas_eraseKey {T : Type} (es : List (JKey × T)) (k : JKey)
    (hnd : (es.map Prod.fst).Nodup) : jsHas (jsEraseKey es k) k = false := by
  induction es with
  | nil => simp [jsEraseKey, jsHas, jsGet]
  | cons p rest ih =>
      rw [List.map_cons, List.nodup_cons] at hnd
      by_cases hp : p.1 = k
      · simp only [jsEraseKey, if_pos hp]
        rw [Bool.eq_false_iff, Ne, jsHas_iff]
        rw [hp] at hnd
        exact hnd.1
      · simp only [jsEraseKey, if_neg hp]
        have hrec : (jsGet (jsEraseKey rest k) k).isSome = false := ih hnd.2
        simp only [jsHas, jsGet, if_neg hp]
        exact hrec

theorem jsHasInt_eraseInt {T : Type} (es : List (JKey × T)) (i : Int)
    (hnd : (es.map Prod.fst).Nodup) : jsHasInt (jsEraseInt es i) i = false := by
  by_cases h : i < 0
  · simp [jsHasInt, h]
  · simp [jsHasInt, jsEraseInt, h, jsHas_eraseKey es (some i.toNat) hnd]

end TerrainMap

/-! ## Lemmas about contiguous key runs and the gap scan -/

theorem ctg_eq_range' : ∀ (n a : Nat), ctg a n = List.range' a n := by
  intro n
  induction n with
  | zero => intro a; rfl
  | succ m ih => intro a; rw [List.range'_succ]; simp [ctg, ih]

theorem ctg_concat : ∀ (n a : Nat), ctg a (n + 1) = ctg a n ++ [a + n] := by
  intro n a
  rw [ctg_eq_range', ctg_eq_range', List.range'_concat]
  simp

theorem ctg_length : ∀ (n a : Nat), (ctg a n).length = n := by
  intro n a
  rw [ctg_eq_range']
  simp

theorem mem_ctg {m : Nat} {n a : Nat} : m ∈ ctg a n ↔ a ≤ m ∧ m < a + n := by
  rw [ctg_eq_range']
  exact List.mem_range'_1

theorem chain_ctg : ∀ (n a : Nat),
    List.Chain' (fun x y => TerrainMap.jleB x y = true) ((ctg a n).map some) := by
  intro n
  induction n with
  | zero => intro a; simp [ctg]
  | succ m ih =>
      intro a
      cases m with
      | zero => simp [ctg]
      | succ l =>
          show List.Chain'
            (fun x y => TerrainMap.jleB x y = true)
            (some a :: some (a + 1) :: ((ctg (a + 1 + 1) l).map some))
          rw [List.chain'_cons]
          constructor
          · simp [TerrainMap.jleB]
          · exact ih (a + 1)

theorem sortK_chain_id : ∀ (l : List JKey),
    List.Chain' (fun x y => TerrainMap.jleB x y = true) l →
    TerrainMap.sortK l = l
  | [], _ => rfl
  | [_], _ => rfl
  | x :: y :: l, h => by
      rw [List.chain'_cons] at h
      show TerrainMap.insK x (TerrainMap.sortK (y :: l)) = x :: y :: l
      rw [sortK_chain_id (y :: l) h.2]
      simp [TerrainMap.insK, h.1]

theorem scanGap_ctg : ∀ (n a : Nat),
    TerrainMap.scanGap ((ctg a (n + 1)).map some) = some (some (a + n)) := by
  intro n
  induction n with
  | zero => intro a; simp [ctg, TerrainMap.scanGap]
  | succ m ih =>
      intro a
      show TerrainMap.scanGap
        (some a :: ((ctg (a + 1) (m + 1)).map some)) = some (some (a + (m + 1)))
      show TerrainMap.scanGap
        (some a :: some (a + 1) :: ((ctg (a + 1 + 1) m).map some)) = _
      rw [TerrainMap.scanGap]
      rw [if_pos rfl]
      have h := ih (a + 1)
      show TerrainMap.scanGap (some (a + 1) :: ((ctg (a + 1 + 1) m).map some)) = _
      have hshape : some (a + 1) :: ((ctg (a + 1 + 1) m).map some)
          = (ctg (a + 1) (m + 1)).map some := by simp [ctg]
      rw [hshape, h]
      congr 2
      omega

theorem keys_concat {T : Type} (es : List (JKey × T)) (k : Nat) (t : T)
    (hkeys : es.map Prod.fst = (ctg 1 k).map some) :
    (es ++ [(some (k + 1), t)]).map Prod.fst = (ctg 1 (k + 1)).map some := by
  rw [List.map_append, hkeys, ctg_concat]
  have h1 : 1 + k = k + 1 := by omega
  simp [h1]

theorem add_contig {T : Type} (es : List (JKey × T)) (k : Nat) (t : T)
    (hkeys : es.map Prod.fst = (ctg 1 k).map some) :
    TerrainMap.add ⟨es, some (k + 1)⟩ t =
      (some (k + 1), ⟨es ++ [(some (k + 1), t)], some (k + 2)⟩) := by
  have hnot : TerrainMap.jsHas es (some (k + 1)) = false := by
    rw [Bool.eq_false_iff, Ne, TerrainMap.jsHas_iff, hkeys]
    intro hmem
    rw [List.mem_map] at hmem
    rcases hmem with ⟨x, hx, hxeq⟩
    rw [mem_ctg] at hx
    injection hxeq with hx2
    omega
  have hset : TerrainMap.jsSet es (some (k + 1)) t = es ++ [(some (k + 1), t)] :=
    TerrainMap.jsSet_append es (some (k + 1)) t hnot
  have hkeys' := keys_concat es k t hkeys
  have hlen : (es ++ [(some (k + 1), t)]).length = k + 1 := by
    have hl := congrArg List.length hkeys'
    simpa [ctg_length] using hl
  have hfind : TerrainMap.findNextId (es ++ [(some (k + 1), t)]) (some (k + 1))
      = some (k + 2) := by
    rw [TerrainMap.findNextId, hlen, hkeys']
    rw [if_neg (by push_cast; omega)]
    rw [sortK_chain_id ((ctg 1 (k + 1)).map some) (chain_ctg (k + 1) 1)]
    rw [scanGap_ctg k 1]
    show some (1 + k + 1) = some (k + 2)
    congr 1
    omega
  show (some (k + 1),
      (⟨TerrainMap.jsSet es (some (k + 1)) t,
        TerrainMap.findNextId (TerrainMap.jsSet es (some (k + 1)) t)
          (some (k + 1))⟩ : TerrainMap T)) = _
  rw [hset, hfind]

theorem addAll_ctg {T : Type} : ∀ (ts : List T) (k : Nat) (es : List (JKey × T)),
    es.map Prod.fst = (ctg 1 k).map some →
    (TerrainMap.addAll ⟨es, some (k + 1)⟩ ts).1 = (ctg (k + 1) ts.length).map some := by
  intro ts
  induction ts with
  | nil => intro k es _; rfl
  | cons t ts ih =>
      intro k es hkeys
      have ih' := ih (k + 1) (es ++ [(some (k + 1), t)]) (keys_concat es k t hkeys)
      show (TerrainMap.add ⟨es, some (k + 1)⟩ t).1
          :: (TerrainMap.addAll (TerrainMap.add ⟨es, some (k + 1)⟩ t).2 ts).1
        = (ctg (k + 1) (ts.length + 1)).map some
      rw [add_contig es k t hkeys]
      show some (k + 1)
          :: (TerrainMap.addAll ⟨es ++ [(some (k + 1), t)], some (k + 1 + 1)⟩ ts).1
        = _
      rw [ih']
      show some (k + 1) :: (ctg (k + 1 + 1) ts.length).map some
        = (ctg (k + 1) (ts.length + 1)).map some
      rfl

/-! ## The claims -/

/-- Claim C1 (code bug): the spec invariant says that after every successful
mutation `nextFreeId` is the smallest positive integer that is not a key, and
the source's own comment in `findNextId` says "Next id is always the smallest
available" — but after `add 10; add 20; delete 1` the key set is `{2}`, whose
smallest unused positive id is `1`, while the cursor is left at `3`: the gap
scan silently assumes the key run starts at `1`. -/
theorem C1_cursor_not_smallest_free :
    c1state.entries.map Prod.fst = [some 2]
    ∧ c1state.nextId = some 3
    ∧ TerrainMap.jsHasInt c1state.entries 1 = false := by decide

/-- Claim C2 (code bug): on the reachable container `c2state` (entries at
keys `3, 4, 5`, cursor wrongly at `5` because the `size === nextId - 1` fast
path fired), `add` stores at key `5`, which is already present — it silently
overwrites the entry `50` with `99` — whereas `assign(null, entry,
override := false)` on the same container is rejected, so the claimed
equivalence and collision-freedom both fail. -/
theorem C2_add_collides_with_existing_key :
    TerrainMap.jsGet c2state.entries (some 5) = some 50
    ∧ (TerrainMap.add c2state 99).1 = some 5
    ∧ TerrainMap.jsGet (TerrainMap.add c2state 99).2.entries (some 5) = some 99
    ∧ (TerrainMap.set c2state none 99 false).1 = none := by decide

/-- Claim C3 (code bug): after `add 10; delete 1` the cursor becomes `NaN`
(the dead `?? 1` fallback in `findNextId` never fires because
`undefined + 1` is `NaN`, which is not nullish), and the next `add` stores
its entry under the key `NaN` — a key that is not a positive integer, which
the spec (and the class's own doc comment) rule out. -/
theorem C3_nan_key_reachable :
    c3state.entries.map Prod.fst = [none]
    ∧ c3state.nextId = none := by decide

/-- Claim C4 (code bug): the container built by `assign 2; assign 1` has the
key set `{1, 2}` with cursor `4` (the off-by-one fast path), but replaying
its pairs in ascending order into a fresh container yields the same key set
and entries with cursor `3` — the claimed round-trip does not preserve
`nextFreeId`. -/
theorem C4_roundtrip_changes_cursor :
    TerrainMap.sortK (c4orig.entries.map Prod.fst) = [some 1, some 2]
    ∧ TerrainMap.sortK (c4replay.entries.map Prod.fst) = [some 1, some 2]
    ∧ TerrainMap.jsGet c4orig.entries (some 1) = some 20
    ∧ TerrainMap.jsGet c4replay.entries (some 1) = some 20
    ∧ TerrainMap.jsGet c4orig.entries (some 2) = some 10
    ∧ TerrainMap.jsGet c4replay.entries (some 2) = some 10
    ∧ c4orig.nextId = some 4
    ∧ c4replay.nextId = some 3 := by decide

/-- Claim C5 (confirmed): for every sequence of `add` calls on a fresh empty
container, with no interleaved `remove`, the returned ids are exactly
`1, 2, ..., n` in order, with no gaps. -/
theorem C5_adds_return_consecutive_ids (T : Type) (ts : List T) :
    (TerrainMap.addAll (TerrainMap.empty T) ts).1
      = (List.range' 1 ts.length).map some := by
  rw [← ctg_eq_range']
  exact addAll_ctg ts 0 [] rfl

/-- Claim C6 (confirmed): whenever `assign`/`set` is rejected — duplicate id
without override, or id below `1` (the source checks the duplicate first,
then validity) — it returns no assigned id (`undefined`) and leaves the
container completely unchanged; concretely, `assign 5 7` followed by
`assign 5 99` without override is rejected and the entry at key `5` is
still `7`. -/
theorem C6_rejected_assign_is_atomic :
    (∀ (T : Type) (m : TerrainMap T) (i : Int) (t : T) (ov : Bool),
        ((ov = false ∧ TerrainMap.jsHasInt m.entries i = true) ∨ i < 1) →
        TerrainMap.set m (some i) t ov = (none, m))
    ∧ TerrainMap.set c6state (some 5) 99 false = (none, c6state)
    ∧ TerrainMap.jsGet c6state.entries (some 5) = some 7 := by
  refine ⟨?_, by decide, by decide⟩
  intro T m i t ov h
  rcases h with ⟨hov, hhas⟩ | hlt
  · subst hov
    simp [TerrainMap.set, hhas]
  · cases hcond : (!ov && TerrainMap.jsHasInt m.entries i) <;>
      simp [TerrainMap.set, hcond, hlt]

/-- Witness for C6: the universal part applied to the concrete duplicate
`assign 5 1` on the container that already maps `5` to `7`. -/
theorem C6_rejected_assign_is_atomic_witness :
    TerrainMap.set c6state (some 5) 1 false = (none, c6state) :=
  C6_rejected_assign_is_atomic.1 Nat c6state 5 1 false (Or.inl ⟨rfl, by decide⟩)

/-- Claim C7 (confirmed): `delete` returns `false` and is an exact no-op when
the id is not a key, and otherwise removes that entry and returns `true`;
concretely, on the container with keys `{1, 2, 3, 4}`, `delete 2` succeeds,
sets the cursor to `2`, and the next `add` reuses id `2`. -/
theorem C7_delete_semantics :
    (∀ (T : Type) (m : TerrainMap T) (i : Int),
        (m.entries.map Prod.fst).Nodup →
        (TerrainMap.jsHasInt m.entries i = false →
          TerrainMap.delete m i = (false, m))
        ∧ (TerrainMap.jsHasInt m.entries i = true →
            (TerrainMap.delete m i).1 = true
            ∧ TerrainMap.jsHasInt (TerrainMap.delete m i).2.entries i = false))
    ∧ (TerrainMap.delete c7m4 2).1 = true
    ∧ (TerrainMap.delete c7m4 2).2.nextId = some 2
    ∧ (TerrainMap.add (TerrainMap.delete c7m4 2).2 50).1 = some 2 := by
  refine ⟨?_, by decide, by decide, by decide⟩
  intro T m i hnd
  constructor
  · intro h
    simp [TerrainMap.delete, h]
  · intro h
    constructor
    · simp [TerrainMap.delete, h]
    · have he := TerrainMap.jsHasInt_eraseInt m.entries i hnd
      simp [TerrainMap.delete, h, he]

/-- Witness for C7: the universal part applied to `delete 2` on the concrete
container with keys `{1, 2, 3, 4}`. -/
theorem C7_delete_semantics_witness :
    (TerrainMap.delete c7m4 2).1 = true
    ∧ TerrainMap.jsHasInt (TerrainMap.delete c7m4 2).2.entries 2 = false :=
  (C7_delete_semantics.1 Nat c7m4 2 (by decide)).2 (by decide)

/-- Claim C8 (confirmed): for every container and every integer id above
`MAX_TERRAINS = 31` that is not already a key, `assign` succeeds — the
capacity cap is only a console warning, never a rejection — storing the
entry at that key and returning the id. -/
theorem C8_assign_above_max_succeeds (T : Type) (m : TerrainMap T) (i : Int)
    (t : T) (ov : Bool) (hmax : TerrainMap.MAX_TERRAINS < i)
    (hfree : TerrainMap.jsHasInt m.entries i = false) :
    (TerrainMap.set m (some i) t ov).1 = some (some i.toNat)
    ∧ TerrainMap.jsGet (TerrainMap.set m (some i) t ov).2.entries (some i.toNat)
        = some t := by
  have hM : TerrainMap.MAX_TERRAINS = 31 := by decide
  rw [hM] at hmax
  have h1 : ¬ i < 1 := by omega
  constructor
  · simp [TerrainMap.set, hfree, h1]
  · simp [TerrainMap.set, hfree, h1, TerrainMap.jsGet_jsSet_self]

/-- Witness for C8: `assign 40 5` on a fresh container succeeds, returns
`40`, and key `40` maps to `5`. -/
theorem C8_assign_above_max_succeeds_witness :
    (TerrainMap.set (TerrainMap.empty Nat) (some 40) 5 false).1 = some (some 40)
    ∧ TerrainMap.jsGet
        (TerrainMap.set (TerrainMap.empty Nat) (some 40) 5 false).2.entries
        (some 40) = some 5 :=
  C8_assign_above_max_succeeds Nat (TerrainMap.empty Nat) 40 5 false
    (by decide) (by decide)

/-- Claim C9 (confirmed): `elevationMinMax(anchorE)` returns
`min = anchorE + offset + rangeBelow` and `max = anchorE + offset +
rangeAbove` — `rangeBelow` is added to, not subtracted from, the anchored
elevation, so `min ≤ max` holds exactly (in particular, only) when
`rangeBelow ≤ rangeAbove`. -/
theorem C9_elevationMinMax_adds_rangeBelow (cfg : TerrainConfig) (anchorE : Int) :
    (Terrain.elevationMinMax cfg anchorE).1 = anchorE + cfg.offset + cfg.rangeBelow
    ∧ (Terrain.elevationMinMax cfg anchorE).2 = anchorE + cfg.offset + cfg.rangeAbove
    ∧ ((Terrain.elevationMinMax cfg anchorE).1 ≤ (Terrain.elevationMinMax cfg anchorE).2
        ↔ cfg.rangeBelow ≤ cfg.rangeAbove) := by
  refine ⟨rfl, rfl, ?_⟩
  show anchorE + cfg.offset + cfg.rangeBelow ≤ anchorE + cfg.offset + cfg.rangeAbove
    ↔ cfg.rangeBelow ≤ cfg.rangeAbove
  omega

/-- Claim C10 (confirmed): `add` never fails on any container state — it
performs no validity or duplicate check, unconditionally stores the entry at
whatever key the cursor currently holds (even `NaN`), and returns that
key. -/
theorem C10_add_never_fails (T : Type) (m : TerrainMap T) (t : T) :
    (TerrainMap.add m t).1 = m.nextId
    ∧ TerrainMap.jsGet (TerrainMap.add m t).2.entries m.nextId = some t :=
  ⟨rfl, TerrainMap.jsGet_jsSet_self m.entries m.nextId t⟩
